import Mathlib

/-!
# Verification of `system_monitor.py`

A shallow embedding of the repository's single source file
`src/system_monitor.py` (class `SystemMonitor`), together with proofs about
the embedded operations.

Modelling conventions:
* Python floats are modelled as rationals (`ℚ`); `round(x, n)` is Python's
  round-half-to-even on the rational value.
* The external providers (`platform`, `psutil`, `GPUtil`) are modelled at
  their documented interface boundary: their readings are an explicit
  environment value passed to each operation.
* `psutil.cpu_percent(interval=None)` is modelled from psutil's documented
  semantics: it compares the system CPU times against the baseline stored at
  the previous call (or module import), with per-field deltas clamped at
  zero, returning `busy/total * 100` rounded to one decimal, and `0.0` when
  the total delta is zero.  The baseline is the hidden module-level state of
  the provider, threaded explicitly here as a `CpuTimes` value.
* The standard-library `logging` machinery (level filtering on the
  `SystemMonitor` logger, the `RotatingFileHandler` rollover discipline and
  the `Formatter` line format) is embedded from CPython's documented
  behaviour, since the source file's observable output is produced by it.
-/

namespace SystemMonitorRepo

/-! ## Python-style rounding on rationals -/

/-- Python's builtin `round` to an integer: round half to even
(banker's rounding).  When the fractional part is exactly `1/2` the even
neighbour is chosen; otherwise it agrees with rounding to the nearest
integer. -/
def roundHalfEven (x : ℚ) : ℤ :=
  if x - ⌊x⌋ = 1 / 2 then (if 2 ∣ ⌊x⌋ then ⌊x⌋ else ⌊x⌋ + 1) else round x

/-- Python's `round(x, nd)` for `nd ≥ 0` digits: scale, round half to even,
unscale. -/
def pyRound (x : ℚ) (nd : ℕ) : ℚ :=
  (roundHalfEven (x * 10 ^ nd) : ℚ) / 10 ^ nd

theorem floor_le_roundHalfEven (x : ℚ) : ⌊x⌋ ≤ roundHalfEven x := by
  unfold roundHalfEven
  split
  · split
    · exact le_refl _
    · exact le_of_lt (lt_add_one _)
  · rw [round_eq]
    exact Int.floor_le_floor (by linarith)

theorem roundHalfEven_le_ceil (x : ℚ) : roundHalfEven x ≤ ⌈x⌉ := by
  unfold roundHalfEven
  split
  · next h =>
    have hx : x = (⌊x⌋ : ℚ) + 1 / 2 := by linarith
    have hceil : ⌈x⌉ = ⌊x⌋ + 1 := by
      rw [Int.ceil_eq_iff]
      constructor
      · push_cast
        linarith
      · push_cast
        linarith
    split
    · omega
    · omega
  · rw [round_eq]
    have h1 : x ≤ (⌈x⌉ : ℚ) := Int.le_ceil x
    have h2 : ⌊x + 1 / 2⌋ ≤ ⌊(⌈x⌉ : ℚ) + 1 / 2⌋ := Int.floor_le_floor (by linarith)
    have h3 : ⌊(⌈x⌉ : ℚ) + 1 / 2⌋ = ⌈x⌉ + ⌊(1 / 2 : ℚ)⌋ := by
      rw [add_comm, Int.floor_add_int, add_comm]
    have h4 : ⌊(1 / 2 : ℚ)⌋ = 0 := by norm_num [Int.floor_eq_iff]
    omega

theorem roundHalfEven_nonneg (x : ℚ) (h : 0 ≤ x) : 0 ≤ roundHalfEven x :=
  le_trans (Int.floor_nonneg.2 h) (floor_le_roundHalfEven x)

theorem roundHalfEven_le_intCast (x : ℚ) (n : ℤ) (h : x ≤ (n : ℚ)) :
    roundHalfEven x ≤ n := by
  have h1 : roundHalfEven x ≤ ⌈x⌉ := roundHalfEven_le_ceil x
  have h2 : ⌈x⌉ ≤ ⌈(n : ℚ)⌉ := Int.ceil_le_ceil h
  rw [Int.ceil_intCast] at h2
  omega

theorem pyRound_nonneg (x : ℚ) (nd : ℕ) (h : 0 ≤ x) : 0 ≤ pyRound x nd := by
  unfold pyRound
  have h1 : (0 : ℤ) ≤ roundHalfEven (x * 10 ^ nd) :=
    roundHalfEven_nonneg _ (by positivity)
  have h2 : (0 : ℚ) ≤ (roundHalfEven (x * 10 ^ nd) : ℚ) := by exact_mod_cast h1
  positivity

theorem pyRound_le (x : ℚ) (nd : ℕ) (c : ℕ) (h : x ≤ (c : ℚ)) :
    pyRound x nd ≤ (c : ℚ) := by
  unfold pyRound
  have hp : (0 : ℚ) < 10 ^ nd := by positivity
  have h1 : x * 10 ^ nd ≤ ((c * 10 ^ nd : ℤ) : ℚ) := by
    push_cast
    exact mul_le_mul_of_nonneg_right h (le_of_lt hp)
  have h2 : roundHalfEven (x * 10 ^ nd) ≤ (c * 10 ^ nd : ℤ) :=
    roundHalfEven_le_intCast _ _ h1
  have h3 : (roundHalfEven (x * 10 ^ nd) : ℚ) ≤ ((c * 10 ^ nd : ℤ) : ℚ) := by
    exact_mod_cast h2
  rw [div_le_iff₀ hp]
  push_cast at h3 ⊢
  linarith

theorem roundHalfEven_intCast (n : ℤ) : roundHalfEven ((n : ℚ)) = n := by
  unfold roundHalfEven
  rw [Int.floor_intCast, sub_self]
  norm_num [round_intCast]

/-- Evaluation helper: `pyRound` at a rational whose scaled value is an
integer. -/
theorem pyRound_eval (x : ℚ) (nd : ℕ) (n : ℤ) (h : x * 10 ^ nd = (n : ℚ)) :
    pyRound x nd = (n : ℚ) / 10 ^ nd := by
  unfold pyRound
  rw [h, roundHalfEven_intCast]

/-! ## Rendering rationals the way Python renders floats

Used only to build the log/console strings; the claims below never depend on
the digits themselves, only on the surrounding template.  `pyStr` renders a
rational whose denominator divides a power of ten the way `repr` renders the
corresponding Python float (shortest decimal, integral values get a trailing
`.0`), and falls back to the raw rational rendering otherwise. -/

/-- Zero-pad a numeral string on the left to `k` characters. -/
def padZeros (s : String) (k : ℕ) : String :=
  String.mk (List.replicate (k - s.length) '0') ++ s

/-- Decimal rendering of a rational, mimicking `repr` of a Python float for
denominators dividing a power of ten. -/
def pyStr (q : ℚ) : String :=
  match (List.range 40).find? (fun k => q.den ∣ 10 ^ k) with
  | some 0 => toString q.num ++ ".0"
  | some (k + 1) =>
      let sign := if q < 0 then "-" else ""
      let n := q.num.natAbs * (10 ^ (k + 1) / q.den)
      sign ++ toString (n / 10 ^ (k + 1)) ++ "." ++
        padZeros (toString (n % 10 ^ (k + 1))) (k + 1)
  | none => toString q

/-! ## The logger (`logging.getLogger("SystemMonitor")`)

`src/system_monitor.py` line 33-38: named logger with level `INFO` and a
single `RotatingFileHandler`.  A `Logger` here carries the level, the list
of records that reached the handler (a record of severity `lvl` is handed
over iff `lvl` is at least the logger level, CPython's `isEnabledFor`), and
whether the handler has been closed (`logging.shutdown` at interpreter
exit). -/

/-- `logging.DEBUG` -/
def DEBUG : ℕ := 10
/-- `logging.INFO` -/
def INFO : ℕ := 20
/-- `logging.CRITICAL` -/
def CRITICAL : ℕ := 50

structure Logger where
  level : ℕ
  records : List (ℕ × String)
  closed : Bool
deriving Repr, DecidableEq

/-- A logging call `logger.debug/info/critical`: the record reaches the file
handler iff its severity passes the logger's level filter. -/
def Logger.log (lg : Logger) (lvl : ℕ) (msg : String) : Logger :=
  if lg.level ≤ lvl then { lg with records := lg.records ++ [(lvl, msg)] } else lg

/-- Configuration of the `RotatingFileHandler` (line 35). -/
structure SinkConfig where
  maxBytes : ℕ
  backupCount : ℕ
deriving Repr, DecidableEq

/-- `SystemMonitor._setup_logger` (lines 26-39): a logger at level `INFO`
with a `RotatingFileHandler(maxBytes=5*1024*1024, backupCount=3)`. -/
def _setup_logger : Logger × SinkConfig :=
  ({ level := INFO, records := [], closed := false },
   { maxBytes := 5 * 1024 * 1024, backupCount := 3 })

/-! ## GPU adapter (`SystemMonitor._get_gpu_info`, lines 54-68) -/

/-- One device as reported by `GPUtil` (`load` is a fraction in `[0,1]` for a
healthy driver; `name` the device name). -/
structure Gpu where
  load : ℚ
  name : String
deriving Repr, DecidableEq

/-- Outcome of the `GPUtil.getGPUs()` call: a device list (possibly empty —
"no device"), or a raised exception ("no driver", query failure, ...). -/
inductive GpuQueryOutcome where
  | devices : List Gpu → GpuQueryOutcome
  | exc : String → GpuQueryOutcome
deriving Repr, DecidableEq

/-- The value part of `_get_gpu_info`'s return dictionary. -/
structure GpuData where
  usage : ℚ
  name : String
deriving Repr, DecidableEq

/-- `SystemMonitor._get_gpu_info` (lines 54-68): defaults
`{"usage": 0.0, "name": "N/A"}`; on a non-empty device list the first
device's `round(load * 100, 2)` and name; any exception is caught, logged at
debug severity, and the defaults returned.  The function is total: no
exception escapes. -/
def _get_gpu_info (q : GpuQueryOutcome) (lg : Logger) : GpuData × Logger :=
  let gpu_data : GpuData := { usage := 0, name := "N/A" }
  match q with
  | .devices [] => (gpu_data, lg)
  | .devices (gpu :: _) =>
      ({ usage := pyRound (gpu.load * 100) 2, name := gpu.name }, lg)
  | .exc e => (gpu_data, lg.log DEBUG ("Could not retrieve GPU info: " ++ e))

/-- Device list underlying an outcome (empty on exception). -/
def GpuQueryOutcome.deviceList : GpuQueryOutcome → List Gpu
  | .devices l => l
  | .exc _ => []

/-- "GPU unavailable": no device, or the query raised. -/
def GpuQueryOutcome.unavailable : GpuQueryOutcome → Prop
  | .devices [] => True
  | .devices (_ :: _) => False
  | .exc _ => True

instance : DecidablePred GpuQueryOutcome.unavailable := by
  intro q
  unfold GpuQueryOutcome.unavailable
  match q with
  | .devices [] => exact inferInstanceAs (Decidable True)
  | .devices (_ :: _) => exact inferInstanceAs (Decidable False)
  | .exc _ => exact inferInstanceAs (Decidable True)

/-! ## CPU provider state and `psutil.cpu_percent(interval=None)` -/

/-- A cumulative system CPU-times reading (busy and idle accumulators, in
seconds).  `psutil` keeps the reading of the previous `cpu_percent` call as
a module-level baseline. -/
structure CpuTimes where
  busy : ℚ
  idle : ℚ
deriving Repr, DecidableEq

/-- `psutil.cpu_percent(interval=None)`, modelled from psutil's documented
semantics: non-blocking; compares the current reading against the baseline
stored at the previous call (or at module import), clamping each field's
delta at zero; returns `busy_delta / all_delta * 100` rounded to one
decimal, and `0.0` when the total delta is zero. -/
def cpu_percent (last now : CpuTimes) : ℚ :=
  let busy_delta := max (now.busy - last.busy) 0
  let idle_delta := max (now.idle - last.idle) 0
  let all_delta := busy_delta + idle_delta
  if all_delta = 0 then 0 else pyRound (busy_delta / all_delta * 100) 1

/-! ## Per-tick provider readings and `fetch_metrics` (lines 70-85) -/

/-- `psutil.virtual_memory()`: RAM percent plus byte counters (byte counts
are naturals: psutil reports non-negative integers). -/
structure VirtualMemory where
  percent : ℚ
  used : ℕ
  available : ℕ
deriving Repr, DecidableEq

/-- The external readings available to one `fetch_metrics` call. -/
structure EnvReading where
  cpu_times : CpuTimes
  vm : VirtualMemory
  gpu : GpuQueryOutcome
deriving Repr, DecidableEq

/-- The dictionary returned by `fetch_metrics`. -/
structure Snapshot where
  cpu_usage : ℚ
  ram_usage : ℚ
  ram_used : ℚ
  ram_free : ℚ
  gpu_usage : ℚ
  gpu_name : String
deriving Repr, DecidableEq

/-- `SystemMonitor.fetch_metrics` (lines 70-85).  The CPU figure goes
through `psutil.cpu_percent(interval=None)`, whose hidden baseline `st` is
threaded explicitly and updated to the current reading; RAM figures come
straight from `virtual_memory()` (with `round(bytes / 1024**2, 2)`); GPU
figures from `_get_gpu_info`, which may log a debug diagnostic. -/
def fetch_metrics (r : EnvReading) (st : CpuTimes) (lg : Logger) :
    Snapshot × CpuTimes × Logger :=
  let cpu_usage := cpu_percent st r.cpu_times
  let ram := r.vm
  let gl := _get_gpu_info r.gpu lg
  ({ cpu_usage := cpu_usage
     ram_usage := ram.percent
     ram_used := pyRound ((ram.used : ℚ) / 1024 ^ 2) 2
     ram_free := pyRound ((ram.available : ℚ) / 1024 ^ 2) 2
     gpu_usage := gl.1.usage
     gpu_name := gl.1.name },
   r.cpu_times, gl.2)

/-! ## Static OS information (`SystemMonitor._get_os_info`, lines 41-52) -/

/-- The static readings of the `platform`/`psutil` providers for one host
(fixed for the process lifetime). -/
structure OsEnv where
  system : String
  version : String
  machine : String
  cpu_count : ℕ
  total_bytes : ℕ
deriving Repr, DecidableEq

/-- The dictionary returned by `_get_os_info`. -/
structure OsInfo where
  OS : String
  Version : String
  Arch : String
  Cores : ℕ
  Total_RAM : String
deriving Repr, DecidableEq

/-- `SystemMonitor._get_os_info` (lines 41-52): reads the platform fields,
the logical core count and the total RAM rendered as
`f"{round(total / 1024**3, 2)} GB"`. -/
def _get_os_info (env : OsEnv) : OsInfo :=
  { OS := env.system
    Version := env.version
    Arch := env.machine
    Cores := env.cpu_count
    Total_RAM := pyStr (pyRound ((env.total_bytes : ℚ) / 1024 ^ 3) 2) ++ " GB" }

/-- Python's `repr` of the `_get_os_info` dictionary, as interpolated by the
f-string in `log_system_info` (line 91). -/
def osInfoRepr (i : OsInfo) : String :=
  "\x7b'OS': '" ++ i.OS ++ "', 'Version': '" ++ i.Version ++
    "', 'Arch': '" ++ i.Arch ++ "', 'Cores': " ++ toString i.Cores ++
    ", 'Total_RAM': '" ++ i.Total_RAM ++ "'\x7d"

/-! ## The monitor object and its run loop (lines 21-25, 87-123) -/

/-- The `SystemMonitor` instance state set up by `__init__` (lines 21-25). -/
structure Monitor where
  interval : ℕ
  log_file : String
  logger : Logger
  os_info : OsInfo
deriving Repr, DecidableEq

/-- `SystemMonitor.__init__(interval, log_file)` (lines 21-25): stores the
parameters, configures the logger, and captures the static OS info exactly
once. -/
def Monitor.init (env : OsEnv) (interval : ℕ) (log_file : String) : Monitor :=
  { interval := interval
    log_file := log_file
    logger := _setup_logger.1
    os_info := _get_os_info env }

/-- The startup header message of `log_system_info` (line 91):
`f"--- MONITOR STARTED ---\nSystem Info: \x7bself.os_info\x7d"`.  Note the
embedded newline. -/
def headerMsg (i : OsInfo) : String :=
  "--- MONITOR STARTED ---\nSystem Info: " ++ osInfoRepr i

/-- `SystemMonitor.log_system_info` (lines 87-92): logs the startup header
at `INFO`. -/
def log_system_info (mon : Monitor) : Monitor :=
  { mon with logger := mon.logger.log INFO (headerMsg mon.os_info) }

/-- The per-tick log message built in `run` (lines 106-110; the three
adjacent f-string literals concatenate into one template). -/
def log_msg (m : Snapshot) : String :=
  "CPU: " ++ pyStr m.cpu_usage ++ "% | RAM: " ++ pyStr m.ram_usage ++
  "% (" ++ pyStr m.ram_used ++ "MB Used) | GPU: " ++ pyStr m.gpu_usage ++
  "% (" ++ m.gpu_name ++ ")"

/-- The live console line written each tick (line 113). -/
def liveLine (m : Snapshot) : String :=
  "\r[LIVE] CPU: " ++ pyStr m.cpu_usage ++ "% | RAM: " ++ pyStr m.ram_usage ++
  "% | GPU: " ++ pyStr m.gpu_usage ++ "%   "

/-- What the environment delivers during one iteration of the `while True`
loop: normal provider readings, a `KeyboardInterrupt`, or any other raised
exception (rendered message `e`). -/
inductive TickEvent where
  | reading : EnvReading → TickEvent
  | interrupt : TickEvent
  | err : String → TickEvent
deriving Repr, DecidableEq

/-- How `run` ended: the fuel list was exhausted with the loop still
running, a `KeyboardInterrupt` was handled (clean stop), or another
exception was handled (fault). -/
inductive ExitKind where
  | stillRunning
  | stopped
  | faulted
deriving Repr, DecidableEq

/-- The observable result of `run`: final CPU-provider baseline, final
logger, everything printed to the console, and how the loop ended. -/
structure RunResult where
  cpu : CpuTimes
  logger : Logger
  console : List String
  exit : ExitKind
deriving Repr, DecidableEq

/-- The `try: while True: ...` body of `run` (lines 102-123), driven by the
list of per-iteration events.  A normal iteration fetches the metrics, logs
the formatted record at `INFO` and writes the live console line; a
`KeyboardInterrupt` prints the acknowledgment and logs the stopped marker; a
different exception logs at `CRITICAL` and prints the error; both handlers
leave the loop. -/
def runLoop : List TickEvent → CpuTimes → Logger → List String → RunResult
  | [], st, lg, con =>
      { cpu := st, logger := lg, console := con, exit := .stillRunning }
  | .reading r :: rest, st, lg, con =>
      let fm := fetch_metrics r st lg
      let metrics := fm.1
      let lg' := fm.2.2.log INFO (log_msg metrics)
      runLoop rest fm.2.1 lg' (con ++ [liveLine metrics])
  | .interrupt :: _, st, lg, con =>
      { cpu := st
        logger := lg.log INFO "--- MONITOR STOPPED ---"
        console := con ++ ["\n\nStopping service..."]
        exit := .stopped }
  | .err e :: _, st, lg, con =>
      { cpu := st
        logger := lg.log CRITICAL ("Unexpected error: " ++ e)
        console := con ++ ["\nAn error occurred: " ++ e]
        exit := .faulted }

/-- `SystemMonitor.run` (lines 93-123): startup banner, startup header
record, then the loop.  `st0` is the CPU provider's baseline at loop entry
(the reading taken at `psutil` import). -/
def Monitor.run (mon : Monitor) (ticks : List TickEvent) (st0 : CpuTimes) :
    RunResult :=
  let con0 := ["System monitoring service started. (Log file: " ++
                 mon.log_file ++ ")",
               "Press CTRL+C to exit.\n"]
  let mon' := log_system_info mon
  runLoop ticks st0 mon'.logger con0

/-- `logging.shutdown()`, run by CPython at interpreter exit: flushes and
closes every handler, releasing the log resource. -/
def loggingShutdown (lg : Logger) : Logger :=
  { lg with closed := true }

/-- The whole process (`if __name__ == "__main__"` block, lines 125-127,
plus the interpreter's exit sequence): construct the monitor, run it, and
release the logging resources on exit. -/
def mainRun (env : OsEnv) (ticks : List TickEvent) (st0 : CpuTimes) :
    RunResult :=
  let monitor := Monitor.init env 5 "system_monitor.log"
  let r := monitor.run ticks st0
  { r with logger := loggingShutdown r.logger }

/-! ## The rotating file sink (`logging.handlers.RotatingFileHandler`)

Embedded from CPython's `RotatingFileHandler` (the handler instantiated on
line 35): before emitting a formatted record of `n` bytes, `shouldRollover`
checks whether the active file's size plus `n` reaches `maxBytes`; if so,
`doRollover` shifts backup `.i` to `.(i+1)` for `i = backupCount-1 .. 1`
(deleting the previous `.backupCount`), renames the active file to `.1`,
and reopens a fresh active file; the record is then appended to the (possibly
fresh) active file.  The state tracks the byte sizes of the records in the
active file and, for each backup (most recent first), the sizes of its
records. -/

structure RotState where
  active : List ℕ
  backups : List (List ℕ)
deriving Repr, DecidableEq

/-- `RotatingFileHandler.shouldRollover`: roll when `maxBytes > 0` and the
current size plus the incoming record would reach `maxBytes`. -/
def shouldRollover (maxBytes : ℕ) (st : RotState) (n : ℕ) : Bool :=
  0 < maxBytes && maxBytes ≤ st.active.sum + n

/-- `RotatingFileHandler.doRollover`: when backups are kept, the active file
becomes backup `.1`, previous backups shift up, anything beyond
`backupCount` is deleted, and a fresh active file is opened. -/
def doRollover (backupCount : ℕ) (st : RotState) : RotState :=
  if 0 < backupCount then
    { active := [], backups := (st.active :: st.backups).take backupCount }
  else
    { st with active := [] }

/-- `RotatingFileHandler.emit` for one formatted record of `n` bytes. -/
def handlerEmit (cfg : SinkConfig) (st : RotState) (n : ℕ) : RotState :=
  let st' := if shouldRollover cfg.maxBytes st n then
               doRollover cfg.backupCount st
             else st
  { st' with active := st'.active ++ [n] }

/-- Emitting a whole sequence of records, starting from the empty sink. -/
def handlerEmitAll (cfg : SinkConfig) (ns : List ℕ) : RotState :=
  ns.foldl (handlerEmit cfg) { active := [], backups := [] }

/-! ## The on-disk record format

`logging.Formatter("%(asctime)s | %(levelname)s | %(message)s",
datefmt="%Y-%m-%d %H:%M:%S")` (lines 11, 36): each record is rendered as
`<timestamp> | <LEVEL> | <message>` and the handler appends a terminating
newline.  A record therefore occupies one line of the file exactly when its
message (and timestamp/level) contain no newline of their own. -/

/-- The rendering of one record by the configured formatter (before the
handler's terminating `"\n"`). -/
def formatRecord (asctime levelname message : String) : String :=
  asctime ++ " | " ++ levelname ++ " | " ++ message

/-- Split a character list into its lines (separator `'\n'`; a list with no
newline is a single line). -/
def splitLines : List Char → List (List Char)
  | [] => [[]]
  | c :: cs =>
      if c = '\n' then [] :: splitLines cs
      else
        match splitLines cs with
        | l :: ls => (c :: l) :: ls
        | [] => [[c]]

/-- Character template for a `%Y-%m-%d %H:%M:%S` timestamp: `'#'` stands for
one decimal digit, every other character matches itself. -/
def tsTemplate : List Char := "####-##-## ##:##:##".data

/-- Match a character list against a template. -/
def matchesTemplate : List Char → List Char → Bool
  | [], [] => true
  | [], _ :: _ => false
  | _ :: _, [] => false
  | p :: ps, c :: cs =>
      (if p = '#' then c.isDigit else c = p) && matchesTemplate ps cs

/-- Does the list contain `" | "`? -/
def hasFieldSep : List Char → Bool
  | ' ' :: '|' :: ' ' :: _ => true
  | _ :: rest => hasFieldSep rest
  | [] => false

/-- Does one line of the log file match
`YYYY-MM-DD HH:MM:SS | LEVEL | message`? (second-resolution timestamp, then
the separator, then a level field delimited by another separator). -/
def lineFormatOk (cs : List Char) : Bool :=
  matchesTemplate tsTemplate (cs.take 19) &&
  (cs.drop 19).take 3 == [' ', '|', ' '] &&
  hasFieldSep (cs.drop 22)

/-! ## Closed-form trace of the run loop (helper definitions and lemmas) -/

/-- The snapshot produced by `fetch_metrics` — it does not depend on the
logger argument (`fetch_metrics_fst` below). -/
def snapOf (r : EnvReading) (st : CpuTimes) : Snapshot :=
  (fetch_metrics r st _setup_logger.1).1

theorem fetch_metrics_fst (r : EnvReading) (st : CpuTimes) (lg : Logger) :
    (fetch_metrics r st lg).1 = snapOf r st := by
  rcases r with ⟨ct, vm, gpu⟩
  cases gpu with
  | devices l => cases l <;> rfl
  | exc e => rfl

theorem fetch_metrics_cpu (r : EnvReading) (st : CpuTimes) (lg : Logger) :
    (fetch_metrics r st lg).2.1 = r.cpu_times := rfl

/-- At logger level `INFO`, the debug diagnostic of the GPU adapter is
filtered out, so `fetch_metrics` leaves the logger untouched. -/
theorem fetch_metrics_logger (r : EnvReading) (st : CpuTimes) (lg : Logger)
    (h : lg.level = INFO) : (fetch_metrics r st lg).2.2 = lg := by
  rcases r with ⟨ct, vm, gpu⟩
  cases gpu with
  | devices l => cases l <;> rfl
  | exc e =>
    show lg.log DEBUG _ = lg
    unfold Logger.log
    rw [h]
    simp [INFO, DEBUG]

/-- Mirror of `runLoop`: the log records, console lines, final CPU baseline
and exit kind the loop contributes, independent of the logger and console
accumulators. -/
def loopTrace : List TickEvent → CpuTimes →
    List (ℕ × String) × List String × CpuTimes × ExitKind
  | [], st => ([], [], st, .stillRunning)
  | .reading r :: rest, st =>
      let m := snapOf r st
      let t := loopTrace rest r.cpu_times
      ((INFO, log_msg m) :: t.1, liveLine m :: t.2.1, t.2.2)
  | .interrupt :: _, st =>
      ([(INFO, "--- MONITOR STOPPED ---")], ["\n\nStopping service..."],
       st, .stopped)
  | .err e :: _, st =>
      ([(CRITICAL, "Unexpected error: " ++ e)], ["\nAn error occurred: " ++ e],
       st, .faulted)

theorem runLoop_eq (ticks : List TickEvent) :
    ∀ (st : CpuTimes) (lg : Logger) (con : List String), lg.level = INFO →
    runLoop ticks st lg con =
      { cpu := (loopTrace ticks st).2.2.1
        logger := { lg with records := lg.records ++ (loopTrace ticks st).1 }
        console := con ++ (loopTrace ticks st).2.1
        exit := (loopTrace ticks st).2.2.2 } := by
  induction ticks with
  | nil =>
    intro st lg con _
    simp [runLoop, loopTrace]
  | cons t rest ih =>
    intro st lg con hlvl
    cases t with
    | reading r =>
      have hlvl' : (lg.log INFO (log_msg (snapOf r st))).level = INFO := by
        unfold Logger.log
        split <;> simp [hlvl]
      show runLoop (.reading r :: rest) st lg con = _
      unfold runLoop
      simp only [fetch_metrics_fst, fetch_metrics_cpu,
        fetch_metrics_logger r st lg hlvl]
      rw [ih r.cpu_times _ _ hlvl']
      unfold Logger.log
      rw [hlvl]
      simp [loopTrace]
    | interrupt =>
      show runLoop (.interrupt :: rest) st lg con = _
      unfold runLoop Logger.log
      rw [hlvl]
      simp [loopTrace, INFO]
    | err e =>
      show runLoop (.err e :: rest) st lg con = _
      unfold runLoop Logger.log
      rw [hlvl]
      simp [loopTrace, INFO, CRITICAL]

/-- The records/console contributions of a prefix of normal iterations. -/
def tickTrace : List EnvReading → CpuTimes →
    List (ℕ × String) × List String × CpuTimes
  | [], st => ([], [], st)
  | r :: rs, st =>
      let m := snapOf r st
      let t := tickTrace rs r.cpu_times
      ((INFO, log_msg m) :: t.1, liveLine m :: t.2.1, t.2.2)

theorem loopTrace_readings_append (rs : List EnvReading) :
    ∀ (tail : List TickEvent) (st : CpuTimes),
    loopTrace (rs.map .reading ++ tail) st =
      ((tickTrace rs st).1 ++ (loopTrace tail (tickTrace rs st).2.2).1,
       (tickTrace rs st).2.1 ++ (loopTrace tail (tickTrace rs st).2.2).2.1,
       (loopTrace tail (tickTrace rs st).2.2).2.2) := by
  induction rs with
  | nil => intro tail st; simp [tickTrace, loopTrace]
  | cons r rs ih =>
    intro tail st
    simp only [List.map_cons, List.cons_append, loopTrace, tickTrace,
      List.append_eq, ih]

/-! ## Assorted helper lemmas -/

theorem log_msg_ne_headerMsg (m : Snapshot) (i : OsInfo) :
    log_msg m ≠ headerMsg i := by
  intro h
  have h' : (log_msg m).data.head? = (headerMsg i).data.head? :=
    congrArg (fun s => s.data.head?) h
  rw [show (log_msg m).data.head? = some 'C' from rfl,
      show (headerMsg i).data.head? = some '-' from rfl] at h'
  exact absurd h' (by decide)

theorem stopped_ne_headerMsg (i : OsInfo) :
    "--- MONITOR STOPPED ---" ≠ headerMsg i := by
  intro h
  have h' : ("--- MONITOR STOPPED ---").data.get? 14 = (headerMsg i).data.get? 14 :=
    congrArg (fun s => s.data.get? 14) h
  rw [show ("--- MONITOR STOPPED ---").data.get? 14 = some 'O' from rfl,
      show (headerMsg i).data.get? 14 = some 'A' from rfl] at h'
  exact absurd h' (by decide)

theorem critical_ne_headerMsg (e : String) (i : OsInfo) :
    "Unexpected error: " ++ e ≠ headerMsg i := by
  intro h
  have h' : ("Unexpected error: " ++ e).data.head? = (headerMsg i).data.head? :=
    congrArg (fun s => s.data.head?) h
  rw [show ("Unexpected error: " ++ e).data.head? = some 'U' from rfl,
      show (headerMsg i).data.head? = some '-' from rfl] at h'
  exact absurd h' (by decide)

/-- Every record contributed by the loop is a per-tick record, the stopped
marker, or a critical error record. -/
theorem loopTrace_rec_shape (ticks : List TickEvent) :
    ∀ (st : CpuTimes) (rec : ℕ × String), rec ∈ (loopTrace ticks st).1 →
      (∃ m, rec = (INFO, log_msg m)) ∨
      rec = (INFO, "--- MONITOR STOPPED ---") ∨
      (∃ e, rec = (CRITICAL, "Unexpected error: " ++ e)) := by
  induction ticks with
  | nil => intro st rec h; simp [loopTrace] at h
  | cons t rest ih =>
    intro st rec h
    cases t with
    | reading r =>
      simp only [loopTrace, List.mem_cons] at h
      rcases h with h | h
      · exact Or.inl ⟨snapOf r st, h⟩
      · exact ih r.cpu_times rec h
    | interrupt =>
      simp only [loopTrace, List.mem_singleton] at h
      exact Or.inr (Or.inl h)
    | err e =>
      simp only [loopTrace, List.mem_singleton] at h
      exact Or.inr (Or.inr ⟨e, h⟩)

/-- `psutil.cpu_percent` always lands in `[0, 100]`, whatever the two
cumulative readings are. -/
theorem cpu_percent_bounds (a b : CpuTimes) :
    0 ≤ cpu_percent a b ∧ cpu_percent a b ≤ 100 := by
  unfold cpu_percent
  set bd := max (b.busy - a.busy) 0 with hbd
  set idl := max (b.idle - a.idle) 0 with hidl
  have hbd0 : 0 ≤ bd := le_max_right _ _
  have hidl0 : 0 ≤ idl := le_max_right _ _
  by_cases h : bd + idl = 0
  · simp [h]
  · have hpos : 0 < bd + idl := lt_of_le_of_ne (by linarith) (Ne.symm h)
    have hfrac0 : 0 ≤ bd / (bd + idl) * 100 := by positivity
    have hfrac1 : bd / (bd + idl) * 100 ≤ 100 := by
      have h1 : bd / (bd + idl) ≤ 1 := by
        rw [div_le_one hpos]
        linarith
      linarith
    simp only [h, if_false]
    exact ⟨pyRound_nonneg _ _ hfrac0, by
      have := pyRound_le (bd / (bd + idl) * 100) 1 100 (by exact_mod_cast hfrac1)
      exact_mod_cast this⟩

/-- One emit preserves the sink invariant: the backup count stays within
`backupCount`, and afterwards the active file is below the cap unless it
holds exactly the one record that was just written. -/
theorem handlerEmit_inv (cfg : SinkConfig) (hcap : 0 < cfg.maxBytes)
    (st : RotState) (n : ℕ) (hb : st.backups.length ≤ cfg.backupCount) :
    (handlerEmit cfg st n).backups.length ≤ cfg.backupCount ∧
    ((handlerEmit cfg st n).active.sum < cfg.maxBytes ∨
      (handlerEmit cfg st n).active.length = 1) := by
  unfold handlerEmit
  by_cases hro : shouldRollover cfg.maxBytes st n = true
  · rw [if_pos hro]
    unfold doRollover
    by_cases hbc : 0 < cfg.backupCount
    · rw [if_pos hbc]
      constructor
      · simp
      · right; rfl
    · rw [if_neg hbc]
      exact ⟨hb, Or.inr rfl⟩
  · rw [if_neg hro]
    unfold shouldRollover at hro
    simp only [Bool.and_eq_true, decide_eq_true_eq, not_and, not_le] at hro
    have hlt : st.active.sum + n < cfg.maxBytes := hro hcap
    constructor
    · exact hb
    · left
      simpa [List.sum_append] using hlt

theorem handlerFold_inv (cfg : SinkConfig) (hcap : 0 < cfg.maxBytes) :
    ∀ (ns : List ℕ) (st : RotState),
      st.backups.length ≤ cfg.backupCount →
      (st.active.sum < cfg.maxBytes ∨ st.active.length = 1) →
      ((ns.foldl (handlerEmit cfg) st).backups.length ≤ cfg.backupCount ∧
       ((ns.foldl (handlerEmit cfg) st).active.sum < cfg.maxBytes ∨
        (ns.foldl (handlerEmit cfg) st).active.length = 1)) := by
  intro ns
  induction ns with
  | nil => intro st hb ha; exact ⟨hb, ha⟩
  | cons n ns ih =>
    intro st hb _
    have h1 := handlerEmit_inv cfg hcap st n hb
    exact ih (handlerEmit cfg st n) h1.1 h1.2

/-! Lemmas about `splitLines` and the line format. -/

theorem splitLines_cons (c : Char) (x : List Char) :
    splitLines (c :: x) =
      if c = '\n' then [] :: splitLines x
      else
        match splitLines x with
        | l :: ls => (c :: l) :: ls
        | [] => [[c]] := rfl

theorem splitLines_ne_nil (cs : List Char) : splitLines cs ≠ [] := by
  induction cs with
  | nil => simp [splitLines]
  | cons c cs ih =>
    unfold splitLines
    split
    · simp
    · cases h : splitLines cs with
      | nil => exact absurd h ih
      | cons l ls => simp [h]

theorem splitLines_no_newline (a : List Char) (h : '\n' ∉ a) :
    splitLines a = [a] := by
  induction a with
  | nil => rfl
  | cons c cs ih =>
    have hc : c ≠ '\n' := fun hc => h (by simp [hc])
    have hcs : '\n' ∉ cs := fun hm => h (List.mem_cons_of_mem _ hm)
    rw [splitLines_cons, ih hcs]
    simp [hc]

theorem splitLines_append_newline (a b : List Char) (h : '\n' ∉ a) :
    splitLines (a ++ '\n' :: b) = a :: splitLines b := by
  induction a with
  | nil =>
    show splitLines ('\n' :: b) = [] :: splitLines b
    rw [splitLines_cons]
    simp
  | cons c cs ih =>
    have hc : c ≠ '\n' := fun hc => h (by simp [hc])
    have hcs : '\n' ∉ cs := fun hm => h (List.mem_cons_of_mem _ hm)
    show splitLines (c :: (cs ++ '\n' :: b)) = (c :: cs) :: splitLines b
    rw [splitLines_cons, ih hcs]
    simp [hc]

theorem matchesTemplate_length : ∀ (tmpl cs : List Char),
    matchesTemplate tmpl cs = true → cs.length = tmpl.length := by
  intro tmpl
  induction tmpl with
  | nil => intro cs h; cases cs with
    | nil => rfl
    | cons c cs => exact absurd h (by simp [matchesTemplate])
  | cons p ps ih =>
    intro cs h
    cases cs with
    | nil => exact absurd h (by simp [matchesTemplate])
    | cons c cs =>
      unfold matchesTemplate at h
      rw [Bool.and_eq_true] at h
      simp [ih cs h.2]

theorem lineFormatOk_false_of_head_nondigit (c : Char) (hc : c.isDigit = false)
    (l : List Char) : lineFormatOk (c :: l) = false := by
  unfold lineFormatOk
  have h19 : (c :: l).take 19 = c :: l.take 18 := List.take_succ_cons
  have hm : matchesTemplate tsTemplate ((c :: l).take 19) = false := by
    rw [h19, show tsTemplate = '#' :: "###-##-## ##:##:##".data from rfl]
    unfold matchesTemplate
    simp [hc]
  rw [hm]
  rfl

theorem string_data_append (a b : String) : (a ++ b).data = a.data ++ b.data :=
  rfl

theorem formatRecord_data (ts lvl msg : String) :
    (formatRecord ts lvl msg).data =
      ts.data ++ ([' ', '|', ' '] ++ (lvl.data ++ ([' ', '|', ' '] ++ msg.data))) := by
  simp [formatRecord, string_data_append, List.append_assoc,
    show (" | " : String).data = [' ', '|', ' '] from rfl]

theorem matchesTemplate_no_newline : ∀ (tmpl cs : List Char),
    '\n' ∉ tmpl → matchesTemplate tmpl cs = true → '\n' ∉ cs := by
  intro tmpl
  induction tmpl with
  | nil =>
    intro cs _ h
    cases cs with
    | nil => simp
    | cons c cs => exact absurd h (by simp [matchesTemplate])
  | cons p ps ih =>
    intro cs hnp h
    cases cs with
    | nil => simp
    | cons c cs =>
      unfold matchesTemplate at h
      rw [Bool.and_eq_true] at h
      intro hmem
      rcases List.mem_cons.1 hmem with h1 | h1
      · by_cases hp : p = '#'
        · rw [if_pos hp] at h
          rw [← h1] at h
          exact absurd h.1 (by decide)
        · rw [if_neg hp] at h
          have hcp : c = p := by
            have := h.1
            simpa using this
          apply hnp
          rw [← hcp, ← h1]
          exact List.mem_cons_self _ _
      · exact ih cs (fun hm => hnp (List.mem_cons_of_mem _ hm)) h.2 h1

/-- A record whose timestamp matches the template and whose level is one of
the two levels the program writes occupies, once formatted, exactly one
line, and that line matches the log-line format. -/
theorem formatted_one_line (ts lvl msg : String)
    (hts : matchesTemplate tsTemplate ts.data = true)
    (hlvl : lvl = "INFO" ∨ lvl = "CRITICAL")
    (hmsg : '\n' ∉ msg.data) :
    splitLines (formatRecord ts lvl msg).data = [(formatRecord ts lvl msg).data] ∧
    lineFormatOk (formatRecord ts lvl msg).data = true := by
  have htsnl : '\n' ∉ ts.data :=
    matchesTemplate_no_newline tsTemplate ts.data (by decide) hts
  have hlvlnl : '\n' ∉ lvl.data := by
    rcases hlvl with h | h <;> rw [h] <;> decide
  have hlen19 : ts.data.length = 19 := by
    have := matchesTemplate_length tsTemplate ts.data hts
    simpa using this
  constructor
  · apply splitLines_no_newline
    rw [formatRecord_data]
    intro hmem
    simp only [List.mem_append] at hmem
    rcases hmem with h | h | h | h | h
    · exact htsnl h
    · exact absurd h (by decide)
    · exact hlvlnl h
    · exact absurd h (by decide)
    · exact hmsg h
  · rw [formatRecord_data]
    unfold lineFormatOk
    have h1 : (ts.data ++ ([' ', '|', ' '] ++
        (lvl.data ++ ([' ', '|', ' '] ++ msg.data)))).take 19 = ts.data :=
      List.take_left' hlen19
    have h2 : (ts.data ++ ([' ', '|', ' '] ++
        (lvl.data ++ ([' ', '|', ' '] ++ msg.data)))).drop 19 =
        [' ', '|', ' '] ++ (lvl.data ++ ([' ', '|', ' '] ++ msg.data)) :=
      List.drop_left' hlen19
    have h3 : (([' ', '|', ' '] : List Char) ++
        (lvl.data ++ ([' ', '|', ' '] ++ msg.data))).take 3 = [' ', '|', ' '] := rfl
    have hre : ts.data ++ ([' ', '|', ' '] ++
        (lvl.data ++ ([' ', '|', ' '] ++ msg.data))) =
        (ts.data ++ [' ', '|', ' ']) ++ (lvl.data ++ ([' ', '|', ' '] ++ msg.data)) := by
      simp [List.append_assoc]
    have h4 : (ts.data ++ ([' ', '|', ' '] ++
        (lvl.data ++ ([' ', '|', ' '] ++ msg.data)))).drop 22 =
        lvl.data ++ ([' ', '|', ' '] ++ msg.data) := by
      rw [hre]
      exact List.drop_left' (by simp [hlen19])
    have h5 : hasFieldSep (lvl.data ++ ([' ', '|', ' '] ++ msg.data)) = true := by
      rcases hlvl with h | h <;> rw [h] <;> rfl
    rw [h1, h2, h3, h4, hts, h5]
    rfl

/-- The startup header message decomposes around its embedded newline. -/
theorem headerMsg_data (i : OsInfo) :
    (headerMsg i).data =
      ("--- MONITOR STARTED ---").data ++
        '\n' :: (("System Info: ").data ++ (osInfoRepr i).data) := by
  show ("--- MONITOR STARTED ---\nSystem Info: ").data ++ (osInfoRepr i).data = _
  rw [show ("--- MONITOR STARTED ---\nSystem Info: ").data =
      ("--- MONITOR STARTED ---").data ++ '\n' :: ("System Info: ").data from rfl]
  simp [List.append_assoc]

/-- Closed form of a whole `run`: banner, header record, then the loop
trace. -/
theorem Monitor_run_eq (env : OsEnv) (i : ℕ) (f : String)
    (ticks : List TickEvent) (st0 : CpuTimes) :
    (Monitor.init env i f).run ticks st0 =
      { cpu := (loopTrace ticks st0).2.2.1
        logger := { level := INFO
                    records := (INFO, headerMsg (_get_os_info env)) ::
                      (loopTrace ticks st0).1
                    closed := false }
        console := ["System monitoring service started. (Log file: " ++ f ++ ")",
                    "Press CTRL+C to exit.\n"] ++ (loopTrace ticks st0).2.1
        exit := (loopTrace ticks st0).2.2.2 } := by
  have hlg : (_setup_logger.1).log INFO (headerMsg (_get_os_info env)) =
      { level := INFO, records := [(INFO, headerMsg (_get_os_info env))],
        closed := false } := by
    unfold Logger.log _setup_logger
    simp
  show runLoop ticks st0 ((_setup_logger.1).log INFO (headerMsg (_get_os_info env)))
      ["System monitoring service started. (Log file: " ++ f ++ ")",
       "Press CTRL+C to exit.\n"] = _
  rw [hlg, runLoop_eq ticks st0 _ _ rfl]
  simp

/-! ## The claims -/

/-- **C1.** For every GPU query outcome (no driver / no device / the query
raising any exception), `_get_gpu_info` catches the error internally, logs
it at debug severity, and returns the default pair `(0.0, "N/A")`; the
caller never observes an exception from this path (the embedded function is
total), and when at least one GPU is present it returns the first device's
load rounded to 2 decimals as a percentage together with that device's
name. -/
theorem C1_gpu_adapter_failure_policy (lg : Logger) (e : String) (g : Gpu)
    (gs : List Gpu) :
    _get_gpu_info (.exc e) lg =
      (({ usage := 0, name := "N/A" } : GpuData),
       lg.log DEBUG ("Could not retrieve GPU info: " ++ e)) ∧
    _get_gpu_info (.devices []) lg =
      (({ usage := 0, name := "N/A" } : GpuData), lg) ∧
    _get_gpu_info (.devices (g :: gs)) lg =
      (({ usage := pyRound (g.load * 100) 2, name := g.name } : GpuData), lg) :=
  ⟨rfl, rfl, rfl⟩

/-- **C10.** The logger's level is set to `INFO` by `_setup_logger` while
GPU failures are recorded via `logger.debug`, so a GPU query failure
appends no record to the log file: on the failure branch of `_get_gpu_info`
the persisted log contents are unchanged (the debug diagnostic is filtered
out and never reaches the handler). -/
theorem C10_gpu_debug_record_not_persisted (rs : List (ℕ × String))
    (c : Bool) (e : String) :
    _setup_logger.1.level = INFO ∧
    DEBUG < INFO ∧
    (_get_gpu_info (.exc e)
        { level := _setup_logger.1.level, records := rs, closed := c }).2.records
      = rs := by
  refine ⟨rfl, by decide, ?_⟩
  show (Logger.log _ DEBUG _).records = rs
  unfold Logger.log
  norm_num [INFO, DEBUG, _setup_logger]

/-- **C7.** For every tick, the snapshot returned by `fetch_metrics` is
well-formed: CPU and RAM percentages in `[0, 100]`, non-negative RAM
used/free figures, GPU usage in `[0, 100]`, and the GPU fields defaulting
to `(0, "N/A")` whenever the GPU is unavailable — assuming the RAM provider
reports a percentage in `[0, 100]` and GPU loads lie in `[0, 1]` (byte
counts are naturals, hence non-negative by construction; the embedded
`cpu_percent` is in range unconditionally). -/
theorem C7_snapshot_well_formed (r : EnvReading) (st : CpuTimes) (lg : Logger)
    (h0 : 0 ≤ r.vm.percent) (h1 : r.vm.percent ≤ 100)
    (hg : ∀ g ∈ r.gpu.deviceList, 0 ≤ g.load ∧ g.load ≤ 1) :
    (0 ≤ (fetch_metrics r st lg).1.cpu_usage ∧
      (fetch_metrics r st lg).1.cpu_usage ≤ 100) ∧
    (0 ≤ (fetch_metrics r st lg).1.ram_usage ∧
      (fetch_metrics r st lg).1.ram_usage ≤ 100) ∧
    0 ≤ (fetch_metrics r st lg).1.ram_used ∧
    0 ≤ (fetch_metrics r st lg).1.ram_free ∧
    (0 ≤ (fetch_metrics r st lg).1.gpu_usage ∧
      (fetch_metrics r st lg).1.gpu_usage ≤ 100) ∧
    (r.gpu.unavailable →
      (fetch_metrics r st lg).1.gpu_usage = 0 ∧
      (fetch_metrics r st lg).1.gpu_name = "N/A") := by
  rcases r with ⟨ct, vm, gpu⟩
  refine ⟨cpu_percent_bounds st ct, ⟨h0, h1⟩,
    pyRound_nonneg _ _ (by positivity), pyRound_nonneg _ _ (by positivity),
    ?_, ?_⟩
  · show 0 ≤ (_get_gpu_info gpu lg).1.usage ∧ (_get_gpu_info gpu lg).1.usage ≤ 100
    cases gpu with
    | exc e => constructor <;> norm_num [_get_gpu_info]
    | devices l =>
      cases l with
      | nil => constructor <;> norm_num [_get_gpu_info]
      | cons g gs =>
        have hgl := hg g (by simp [GpuQueryOutcome.deviceList])
        show 0 ≤ pyRound (g.load * 100) 2 ∧ pyRound (g.load * 100) 2 ≤ 100
        constructor
        · exact pyRound_nonneg _ _ (by nlinarith [hgl.1])
        · have h100 := pyRound_le (g.load * 100) 2 100 (by push_cast; nlinarith [hgl.2])
          exact_mod_cast h100
  · intro hun
    cases gpu with
    | exc e => exact ⟨rfl, rfl⟩
    | devices l =>
      cases l with
      | nil => exact ⟨rfl, rfl⟩
      | cons g gs => exact hun.elim

/-- Witness for C7 at a concrete reading (no GPU device, RAM at 0%). -/
theorem C7_witness :
    (0 ≤ (fetch_metrics ⟨⟨0, 0⟩, ⟨0, 0, 0⟩, .devices []⟩ ⟨0, 0⟩
        _setup_logger.1).1.cpu_usage ∧
      (fetch_metrics ⟨⟨0, 0⟩, ⟨0, 0, 0⟩, .devices []⟩ ⟨0, 0⟩
        _setup_logger.1).1.cpu_usage ≤ 100) ∧
    (0 ≤ (fetch_metrics ⟨⟨0, 0⟩, ⟨0, 0, 0⟩, .devices []⟩ ⟨0, 0⟩
        _setup_logger.1).1.ram_usage ∧
      (fetch_metrics ⟨⟨0, 0⟩, ⟨0, 0, 0⟩, .devices []⟩ ⟨0, 0⟩
        _setup_logger.1).1.ram_usage ≤ 100) ∧
    0 ≤ (fetch_metrics ⟨⟨0, 0⟩, ⟨0, 0, 0⟩, .devices []⟩ ⟨0, 0⟩
        _setup_logger.1).1.ram_used ∧
    0 ≤ (fetch_metrics ⟨⟨0, 0⟩, ⟨0, 0, 0⟩, .devices []⟩ ⟨0, 0⟩
        _setup_logger.1).1.ram_free ∧
    (0 ≤ (fetch_metrics ⟨⟨0, 0⟩, ⟨0, 0, 0⟩, .devices []⟩ ⟨0, 0⟩
        _setup_logger.1).1.gpu_usage ∧
      (fetch_metrics ⟨⟨0, 0⟩, ⟨0, 0, 0⟩, .devices []⟩ ⟨0, 0⟩
        _setup_logger.1).1.gpu_usage ≤ 100) ∧
    ((GpuQueryOutcome.devices []).unavailable →
      (fetch_metrics ⟨⟨0, 0⟩, ⟨0, 0, 0⟩, .devices []⟩ ⟨0, 0⟩
        _setup_logger.1).1.gpu_usage = 0 ∧
      (fetch_metrics ⟨⟨0, 0⟩, ⟨0, 0, 0⟩, .devices []⟩ ⟨0, 0⟩
        _setup_logger.1).1.gpu_name = "N/A") :=
  C7_snapshot_well_formed ⟨⟨0, 0⟩, ⟨0, 0, 0⟩, .devices []⟩ ⟨0, 0⟩
    _setup_logger.1 (le_refl 0) (by norm_num)
    (by simp [GpuQueryOutcome.deviceList])

/-- Concrete per-tick provider reading used to refute C8: the cumulative
CPU-times counter stands at `(busy = 50s, idle = 50s)`, there is no GPU and
the RAM reading is zero. -/
def cexReading : EnvReading := ⟨⟨50, 50⟩, ⟨0, 0, 0⟩, .devices []⟩

/-- **C8 — counterexample.** Two `fetch_metrics` calls under the *same*
external reading (`cexReading`) return different snapshots, because
`psutil.cpu_percent(interval=None)` averages over the window since the
previous call: if the previous call sampled the counter at `(40, 10)` the
CPU figure is `(50-40)/((50-40)+(50-10))*100 = 20.0`, while a previous
sample of `(10, 40)` yields `80.0`.  So the CPU figure does depend on when
and whether a previous call was made, contradicting the claim. -/
theorem C8_counterexample :
    (fetch_metrics cexReading ⟨40, 10⟩ _setup_logger.1).1.cpu_usage = 20 ∧
    (fetch_metrics cexReading ⟨10, 40⟩ _setup_logger.1).1.cpu_usage = 80 ∧
    (fetch_metrics cexReading ⟨40, 10⟩ _setup_logger.1).1 ≠
      (fetch_metrics cexReading ⟨10, 40⟩ _setup_logger.1).1 := by
  have e1 : (fetch_metrics cexReading ⟨40, 10⟩ _setup_logger.1).1.cpu_usage = 20 := by
    show cpu_percent ⟨40, 10⟩ ⟨50, 50⟩ = 20
    unfold cpu_percent
    norm_num
    rw [pyRound_eval _ _ 200 (by norm_num)]
    norm_num
  have e2 : (fetch_metrics cexReading ⟨10, 40⟩ _setup_logger.1).1.cpu_usage = 80 := by
    show cpu_percent ⟨10, 40⟩ ⟨50, 50⟩ = 80
    unfold cpu_percent
    norm_num
    rw [pyRound_eval _ _ 800 (by norm_num)]
    norm_num
  refine ⟨e1, e2, fun h => ?_⟩
  have := congrArg Snapshot.cpu_usage h
  rw [e1, e2] at this
  norm_num at this

/-- **C8 — amended.** `fetch_metrics` itself stores nothing between calls
and never blocks, and every non-CPU field of the snapshot depends only on
the current provider readings; but the CPU figure is
`psutil.cpu_percent(interval=None)`, which compares the current reading
against the provider's stored baseline from the previous call (or module
import), so it is an average over the window since the previous call rather
than a history-free instantaneous value.  Two calls return identical
snapshots when both the readings and that baseline agree. -/
theorem C8_amended_statelessness (r : EnvReading) (st st' : CpuTimes)
    (lg lg' : Logger) :
    ((fetch_metrics r st lg).1.ram_usage = (fetch_metrics r st' lg').1.ram_usage ∧
     (fetch_metrics r st lg).1.ram_used = (fetch_metrics r st' lg').1.ram_used ∧
     (fetch_metrics r st lg).1.ram_free = (fetch_metrics r st' lg').1.ram_free ∧
     (fetch_metrics r st lg).1.gpu_usage = (fetch_metrics r st' lg').1.gpu_usage ∧
     (fetch_metrics r st lg).1.gpu_name = (fetch_metrics r st' lg').1.gpu_name) ∧
    (fetch_metrics r st lg).1.cpu_usage = cpu_percent st r.cpu_times ∧
    (fetch_metrics r st lg).2.1 = r.cpu_times ∧
    (st = st' → (fetch_metrics r st lg).1 = (fetch_metrics r st' lg').1) := by
  have hA := fetch_metrics_fst r st lg
  have hB := fetch_metrics_fst r st' lg'
  refine ⟨⟨?_, ?_, ?_, ?_, ?_⟩, rfl, rfl, fun h => ?_⟩
  · rw [hA, hB]; rfl
  · rw [hA, hB]; rfl
  · rw [hA, hB]; rfl
  · rw [hA, hB]; rfl
  · rw [hA, hB]; rfl
  · subst h
    rw [hA, hB]

/-- Witness for the amended C8: at equal baselines the snapshots coincide. -/
theorem C8_amended_witness :
    (fetch_metrics cexReading ⟨0, 0⟩ _setup_logger.1).1 =
      (fetch_metrics cexReading ⟨0, 0⟩ _setup_logger.1).1 :=
  (C8_amended_statelessness cexReading ⟨0, 0⟩ ⟨0, 0⟩
    _setup_logger.1 _setup_logger.1).2.2.2 rfl

/-- **C2.** For every sequence of writes to the rotating sink configured by
`_setup_logger` (cap `5*1024*1024` bytes, 3 backups): rotation happens
before any write that would push the active file past the cap (the
triggering record lands in the fresh active file), so the active file never
exceeds the cap except when it holds exactly that single record; at most 3
backups ever exist; and a rotation at full backup count discards the oldest
backup. -/
theorem C2_rotating_sink_invariants (ns : List ℕ) (s : RotState) (m : ℕ)
    (hb3 : s.backups.length = 3) :
    (_setup_logger.2.maxBytes = 5 * 1024 * 1024 ∧
     _setup_logger.2.backupCount = 3) ∧
    ((handlerEmitAll _setup_logger.2 ns).backups.length ≤ 3 ∧
     ((handlerEmitAll _setup_logger.2 ns).active.sum ≤ 5 * 1024 * 1024 ∨
      (handlerEmitAll _setup_logger.2 ns).active.length = 1)) ∧
    (5 * 1024 * 1024 < s.active.sum + m →
      (handlerEmit _setup_logger.2 s m).active = [m]) ∧
    (shouldRollover _setup_logger.2.maxBytes s m = true →
      (handlerEmit _setup_logger.2 s m).backups =
        s.active :: s.backups.dropLast) := by
  refine ⟨⟨rfl, rfl⟩, ?_, ?_, ?_⟩
  · have h := handlerFold_inv _setup_logger.2 (by norm_num [_setup_logger])
      ns { active := [], backups := [] } (by simp)
      (by left; norm_num [_setup_logger])
    exact ⟨h.1, h.2.elim (fun h' => Or.inl h'.le) Or.inr⟩
  · intro hover
    have hro : shouldRollover _setup_logger.2.maxBytes s m = true := by
      unfold shouldRollover
      simp only [Bool.and_eq_true, decide_eq_true_eq]
      exact ⟨by norm_num [_setup_logger], by
        show _setup_logger.2.maxBytes ≤ s.active.sum + m
        calc _setup_logger.2.maxBytes = 5 * 1024 * 1024 := rfl
          _ ≤ s.active.sum + m := hover.le⟩
    have hro' : shouldRollover 5242880 s m = true := hro
    simp [handlerEmit, doRollover, _setup_logger, hro']
  · intro hro
    have hro' : shouldRollover 5242880 s m = true := hro
    have : (handlerEmit _setup_logger.2 s m).backups =
        (s.active :: s.backups).take 3 := by
      simp [handlerEmit, doRollover, _setup_logger, hro']
    rw [this, List.dropLast_eq_take, hb3]
    simp [List.take_succ_cons]

/-- Witness for C2: with a full active file (one 5 MiB record) and three
backups, the next write triggers a rotation that lands the record in a
fresh active file and discards the oldest backup. -/
theorem C2_witness :
    (handlerEmit _setup_logger.2
        { active := [5242880], backups := [[1], [2], [3]] } 1).active = [1] ∧
    (handlerEmit _setup_logger.2
        { active := [5242880], backups := [[1], [2], [3]] } 1).backups =
      [5242880] :: ([[1], [2], [3]] : List (List ℕ)).dropLast :=
  ⟨(C2_rotating_sink_invariants []
      { active := [5242880], backups := [[1], [2], [3]] } 1 rfl).2.2.1
      (by norm_num),
   (C2_rotating_sink_invariants []
      { active := [5242880], backups := [[1], [2], [3]] } 1 rfl).2.2.2
      (by decide)⟩

/-- **C3.** If a `KeyboardInterrupt` is raised during the running loop,
`run` prints the acknowledgment, writes `"--- MONITOR STOPPED ---"` as the
final record of the log (nothing is written after it — the iterations that
would have followed are never executed), the log resource is released on
exit, and the process ends cleanly. -/
theorem C3_interrupt_clean_shutdown (env : OsEnv) (rs : List EnvReading)
    (rest : List TickEvent) (st0 : CpuTimes) :
    (mainRun env (rs.map .reading ++ .interrupt :: rest) st0).exit = .stopped ∧
    (mainRun env (rs.map .reading ++ .interrupt :: rest) st0).logger.records.getLast?
      = some (INFO, "--- MONITOR STOPPED ---") ∧
    "\n\nStopping service..." ∈
      (mainRun env (rs.map .reading ++ .interrupt :: rest) st0).console ∧
    (mainRun env (rs.map .reading ++ .interrupt :: rest) st0).logger.closed = true ∧
    mainRun env (rs.map .reading ++ .interrupt :: rest) st0 =
      mainRun env (rs.map .reading ++ [.interrupt]) st0 := by
  have hmain : ∀ tail : List TickEvent,
      mainRun env (rs.map .reading ++ tail) st0 =
      { cpu := (loopTrace tail (tickTrace rs st0).2.2).2.2.1
        logger := { level := INFO
                    records := (INFO, headerMsg (_get_os_info env)) ::
                      ((tickTrace rs st0).1 ++
                        (loopTrace tail (tickTrace rs st0).2.2).1)
                    closed := true }
        console := ["System monitoring service started. (Log file: system_monitor.log)",
                    "Press CTRL+C to exit.\n"] ++
                   ((tickTrace rs st0).2.1 ++
                     (loopTrace tail (tickTrace rs st0).2.2).2.1)
        exit := (loopTrace tail (tickTrace rs st0).2.2).2.2.2 } := by
    intro tail
    show { (Monitor.init env 5 "system_monitor.log").run (rs.map TickEvent.reading ++ tail) st0
            with logger := loggingShutdown ((Monitor.init env 5 "system_monitor.log").run
              (rs.map TickEvent.reading ++ tail) st0).logger } = _
    rw [Monitor_run_eq, loopTrace_readings_append]
    simp [loggingShutdown]
  refine ⟨?_, ?_, ?_, ?_, ?_⟩
  · rw [hmain]
    rfl
  · rw [hmain]
    show ((INFO, headerMsg (_get_os_info env)) ::
      ((tickTrace rs st0).1 ++ [(INFO, "--- MONITOR STOPPED ---")])).getLast? = _
    rw [← List.cons_append, List.getLast?_concat]
  · rw [hmain]
    simp [loopTrace]
  · rw [hmain]
  · rw [hmain, hmain]
    rfl

/-- **C4.** If any exception other than `KeyboardInterrupt` is raised
during a tick, `run` logs it at `CRITICAL` (the final record of the log),
prints it to the console, and terminates the loop without retrying (later
iterations are never executed); the fault is recorded both in the log and
on the console. -/
theorem C4_fault_terminates_loudly (env : OsEnv) (rs : List EnvReading)
    (e : String) (rest : List TickEvent) (st0 : CpuTimes) :
    (mainRun env (rs.map .reading ++ .err e :: rest) st0).exit = .faulted ∧
    (mainRun env (rs.map .reading ++ .err e :: rest) st0).logger.records.getLast?
      = some (CRITICAL, "Unexpected error: " ++ e) ∧
    ("\nAn error occurred: " ++ e) ∈
      (mainRun env (rs.map .reading ++ .err e :: rest) st0).console ∧
    mainRun env (rs.map .reading ++ .err e :: rest) st0 =
      mainRun env (rs.map .reading ++ [.err e]) st0 := by
  have hmain : ∀ tail : List TickEvent,
      mainRun env (rs.map .reading ++ tail) st0 =
      { cpu := (loopTrace tail (tickTrace rs st0).2.2).2.2.1
        logger := { level := INFO
                    records := (INFO, headerMsg (_get_os_info env)) ::
                      ((tickTrace rs st0).1 ++
                        (loopTrace tail (tickTrace rs st0).2.2).1)
                    closed := true }
        console := ["System monitoring service started. (Log file: system_monitor.log)",
                    "Press CTRL+C to exit.\n"] ++
                   ((tickTrace rs st0).2.1 ++
                     (loopTrace tail (tickTrace rs st0).2.2).2.1)
        exit := (loopTrace tail (tickTrace rs st0).2.2).2.2.2 } := by
    intro tail
    show { (Monitor.init env 5 "system_monitor.log").run (rs.map TickEvent.reading ++ tail) st0
            with logger := loggingShutdown ((Monitor.init env 5 "system_monitor.log").run
              (rs.map TickEvent.reading ++ tail) st0).logger } = _
    rw [Monitor_run_eq, loopTrace_readings_append]
    simp [loggingShutdown]
  refine ⟨?_, ?_, ?_, ?_⟩
  · rw [hmain]
    rfl
  · rw [hmain]
    show ((INFO, headerMsg (_get_os_info env)) ::
      ((tickTrace rs st0).1 ++ [(CRITICAL, "Unexpected error: " ++ e)])).getLast? = _
    rw [← List.cons_append, List.getLast?_concat]
  · rw [hmain]
    simp [loopTrace]
  · rw [hmain, hmain]
    rfl

/-- **C5.** For every tick of the running loop, the record written to the
log for the tick's snapshot carries severity `INFO` and message exactly
`CPU: <cpu_usage>% | RAM: <ram_usage>% (<ram_used>MB Used) | GPU:
<gpu_usage>% (<gpu_name>)` with the snapshot's values substituted (every
tick of a run is the head of such a `runLoop` call, with `lg` the logger
accumulated so far, which always has level `INFO`). -/
theorem C5_tick_record_message (r : EnvReading) (ticks : List TickEvent)
    (st : CpuTimes) (lg : Logger) (con : List String) (h : lg.level = INFO) :
    ∃ tail, (runLoop (.reading r :: ticks) st lg con).logger.records =
      lg.records ++ ((INFO,
        "CPU: " ++ pyStr (snapOf r st).cpu_usage ++ "% | RAM: " ++
        pyStr (snapOf r st).ram_usage ++ "% (" ++ pyStr (snapOf r st).ram_used ++
        "MB Used) | GPU: " ++ pyStr (snapOf r st).gpu_usage ++ "% (" ++
        (snapOf r st).gpu_name ++ ")") :: tail) := by
  refine ⟨(loopTrace ticks r.cpu_times).1, ?_⟩
  rw [runLoop_eq _ _ _ _ h]
  show lg.records ++ (loopTrace (.reading r :: ticks) st).1 = _
  simp [loopTrace, log_msg]

/-- Witness for C5: one tick with a concrete reading. -/
theorem C5_witness :
    ∃ tail, (runLoop [.reading ⟨⟨0, 0⟩, ⟨0, 0, 0⟩, .devices []⟩] ⟨0, 0⟩
        _setup_logger.1 []).logger.records =
      _setup_logger.1.records ++ ((INFO,
        "CPU: " ++ pyStr (snapOf ⟨⟨0, 0⟩, ⟨0, 0, 0⟩, .devices []⟩ ⟨0, 0⟩).cpu_usage ++
        "% | RAM: " ++
        pyStr (snapOf ⟨⟨0, 0⟩, ⟨0, 0, 0⟩, .devices []⟩ ⟨0, 0⟩).ram_usage ++
        "% (" ++ pyStr (snapOf ⟨⟨0, 0⟩, ⟨0, 0, 0⟩, .devices []⟩ ⟨0, 0⟩).ram_used ++
        "MB Used) | GPU: " ++
        pyStr (snapOf ⟨⟨0, 0⟩, ⟨0, 0, 0⟩, .devices []⟩ ⟨0, 0⟩).gpu_usage ++
        "% (" ++ (snapOf ⟨⟨0, 0⟩, ⟨0, 0, 0⟩, .devices []⟩ ⟨0, 0⟩).gpu_name ++
        ")") :: tail) :=
  C5_tick_record_message ⟨⟨0, 0⟩, ⟨0, 0, 0⟩, .devices []⟩ [] ⟨0, 0⟩
    _setup_logger.1 [] rfl

/-- **C9.** Within one process run the static-info operation is idempotent
(two calls under the fixed process environment yield identical results),
the Controller captures the `StaticSystemInfo` exactly once at
initialization, and the startup header containing it appears exactly once
among the records of the whole run, whatever the loop does afterwards. -/
theorem C9_static_info_captured_once (env : OsEnv) (i : ℕ) (f : String)
    (ticks : List TickEvent) (st0 : CpuTimes) :
    _get_os_info env = _get_os_info env ∧
    (Monitor.init env i f).os_info = _get_os_info env ∧
    ((Monitor.init env i f).run ticks st0).logger.records.countP
      (fun rec => rec.2 == headerMsg (_get_os_info env)) = 1 := by
  refine ⟨rfl, rfl, ?_⟩
  rw [Monitor_run_eq]
  show ((INFO, headerMsg (_get_os_info env)) ::
      (loopTrace ticks st0).1).countP _ = 1
  rw [List.countP_cons_of_pos _ _ (by simp)]
  have hz : (loopTrace ticks st0).1.countP
      (fun rec => rec.2 == headerMsg (_get_os_info env)) = 0 := by
    rw [List.countP_eq_zero]
    intro rec hrec
    rcases loopTrace_rec_shape ticks st0 rec hrec with ⟨m, hm⟩ | hstop | ⟨e, he⟩
    · subst hm
      simp [log_msg_ne_headerMsg m (_get_os_info env)]
    · subst hstop
      simp [stopped_ne_headerMsg (_get_os_info env)]
    · subst he
      simp [critical_ne_headerMsg e (_get_os_info env)]
  rw [hz]

/-- **C6 — counterexample.** The startup header record does *not* occupy
exactly one line: formatted with a concrete timestamp and a concrete static
info value, it spans two lines, and the second line
(`System Info: \x7b...\x7d`) does not match the
`YYYY-MM-DD HH:MM:SS | LEVEL | message` format.  This refutes the claim
that every record, including the startup header, occupies exactly one line
of that form. -/
theorem C6_counterexample :
    (splitLines (formatRecord "2024-01-01 00:00:00" "INFO"
        (headerMsg ⟨"Linux", "5.15.0", "x86_64", 8, "15.5 GB"⟩)).data).length = 2 ∧
    lineFormatOk ((splitLines (formatRecord "2024-01-01 00:00:00" "INFO"
        (headerMsg ⟨"Linux", "5.15.0", "x86_64", 8, "15.5 GB"⟩)).data).getD 1 [])
      = false := by
  constructor
  · decide
  · decide

/-- **C6 — amended.** Every record whose message contains no newline — in
particular every per-tick record, the stopped marker and the critical error
record — occupies exactly one plain-text line of the form
`YYYY-MM-DD HH:MM:SS | LEVEL | message` with a second-resolution timestamp.
The startup header record is the exception: its message contains an
embedded newline, so it occupies two lines, of which the first
(`<ts> | INFO | --- MONITOR STARTED ---`) matches the format and the second
(`System Info: \x7b...\x7d`) does not. -/
theorem C6_amended_record_line_format (ts lvl msg : String) (i : OsInfo)
    (hts : matchesTemplate tsTemplate ts.data = true)
    (hlvl : lvl = "INFO" ∨ lvl = "CRITICAL")
    (hmsg : '\n' ∉ msg.data)
    (hrepr : '\n' ∉ (osInfoRepr i).data) :
    (splitLines (formatRecord ts lvl msg).data =
       [(formatRecord ts lvl msg).data] ∧
     lineFormatOk (formatRecord ts lvl msg).data = true) ∧
    (splitLines (formatRecord ts "INFO" (headerMsg i)).data =
       [(formatRecord ts "INFO" "--- MONITOR STARTED ---").data,
        ("System Info: ").data ++ (osInfoRepr i).data] ∧
     lineFormatOk (formatRecord ts "INFO" "--- MONITOR STARTED ---").data = true ∧
     lineFormatOk (("System Info: ").data ++ (osInfoRepr i).data) = false) := by
  have htsnl : '\n' ∉ ts.data :=
    matchesTemplate_no_newline tsTemplate ts.data (by decide) hts
  refine ⟨formatted_one_line ts lvl msg hts hlvl hmsg, ?_, ?_, ?_⟩
  · have hsplit : (formatRecord ts "INFO" (headerMsg i)).data =
        (formatRecord ts "INFO" "--- MONITOR STARTED ---").data ++
          '\n' :: (("System Info: ").data ++ (osInfoRepr i).data) := by
      rw [formatRecord_data, formatRecord_data, headerMsg_data]
      simp [List.append_assoc]
    rw [hsplit]
    rw [splitLines_append_newline _ _ ?hnl]
    · rw [splitLines_no_newline _ ?hnl2]
      intro hmem
      rcases List.mem_append.1 hmem with h | h
      · exact absurd h (by decide)
      · exact hrepr h
    · rw [formatRecord_data]
      intro hmem
      simp only [List.mem_append] at hmem
      rcases hmem with h | h | h | h | h
      · exact htsnl h
      · exact absurd h (by decide)
      · exact absurd h (by decide)
      · exact absurd h (by decide)
      · exact absurd h (by decide)
  · exact (formatted_one_line ts "INFO" "--- MONITOR STARTED ---" hts
      (Or.inl rfl) (by decide)).2
  · rw [show ("System Info: ").data ++ (osInfoRepr i).data =
        'S' :: (("ystem Info: ").data ++ (osInfoRepr i).data) from rfl]
    exact lineFormatOk_false_of_head_nondigit 'S' (by decide) _

/-- Witness for the amended C6 at a concrete timestamp, level, message and
static-info value. -/
theorem C6_amended_witness :
    (splitLines (formatRecord "2024-01-01 00:00:00" "INFO" "hello").data =
       [(formatRecord "2024-01-01 00:00:00" "INFO" "hello").data] ∧
     lineFormatOk (formatRecord "2024-01-01 00:00:00" "INFO" "hello").data
       = true) ∧
    (splitLines (formatRecord "2024-01-01 00:00:00" "INFO"
        (headerMsg ⟨"Linux", "5.15.0", "x86_64", 8, "15.5 GB"⟩)).data =
       [(formatRecord "2024-01-01 00:00:00" "INFO"
          "--- MONITOR STARTED ---").data,
        ("System Info: ").data ++
          (osInfoRepr ⟨"Linux", "5.15.0", "x86_64", 8, "15.5 GB"⟩).data] ∧
     lineFormatOk (formatRecord "2024-01-01 00:00:00" "INFO"
        "--- MONITOR STARTED ---").data = true ∧
     lineFormatOk (("System Info: ").data ++
        (osInfoRepr ⟨"Linux", "5.15.0", "x86_64", 8, "15.5 GB"⟩).data) = false) :=
  C6_amended_record_line_format "2024-01-01 00:00:00" "INFO" "hello"
    ⟨"Linux", "5.15.0", "x86_64", 8, "15.5 GB"⟩
    (by decide) (Or.inl rfl) (by decide) (by decide)

end SystemMonitorRepo
